import Mathlib

/-!
Verification of the GROMACS convenience layer in gmx.py.

The Python source is shallowly embedded: command construction is a pure
function on lists, the dispatcher gmx is a pure function from effect
oracles (process runner, file writer) to a trace of attempted side
effects paired with an Except-style outcome, and the moving average is
the valid-mode convolution over exact rationals.
-/

/-- Outcome of a completed subprocess, as Python subprocess.run returns it
when no exception is raised: the exit status plus captured streams.  A
nonzero returncode is NOT an exception (the source never passes check). -/
structure RunOutcome where
  returncode : Int
  stdout : String
  stderr : String
deriving DecidableEq, Repr

/-- Python exception kinds the embedded code can raise. -/
inductive PyErr where
  | valueError (msg : String)
  | osError (msg : String)
  | typeError (msg : String)
  | nameError (missing : String)
deriving DecidableEq, Repr

/-- Values stored in the scheduler dictionary: a string, Python None, or a
list of strings (the modules entry). -/
inductive SchedVal where
  | vStr (s : String)
  | vNone
  | vList (l : List String)
deriving DecidableEq, Repr

/-- Rendering of a SchedVal by the Python percent-s format: a string prints
itself, None prints as the text None, a list prints as its repr. -/
def pyFormat : SchedVal → String
  | SchedVal.vStr s => s
  | SchedVal.vNone => "None"
  | SchedVal.vList l =>
      "[" ++ String.intercalate ", " (l.map (fun s => "\x27" ++ s ++ "\x27")) ++ "]"

/-- Python dict lookup on an association list (first matching key). -/
def dictGet {V : Type} (d : List (String × V)) (k : String) : Option V :=
  match d with
  | [] => none
  | (k0, v0) :: rest => if k0 = k then some v0 else dictGet rest k

/-- Python dict assignment d[k] = v: replace the value of an existing key
in place, otherwise append the binding at the end (insertion order). -/
def dictSet {V : Type} (d : List (String × V)) (k : String) (v : V) :
    List (String × V) :=
  match d with
  | [] => [(k, v)]
  | (k0, v0) :: rest =>
      if k0 = k then (k0, v) :: rest else (k0, v0) :: dictSet rest k v

/-- The merge loop of gmx: for key in scheduler, schdlr[key] = scheduler[key]. -/
def mergeDict {V : Type} (d : List (String × V)) (ov : List (String × V)) :
    List (String × V) :=
  ov.foldl (fun m kv => dictSet m kv.1 kv.2) d

/-- The hard-coded scheduler defaults built by gmx for the mdrun branch. -/
def schdlrDefault (name ensemble : String) : List (String × SchedVal) :=
  [("job_name", SchedVal.vStr (name ++ ensemble)),
   ("output", SchedVal.vStr (ensemble ++ ".slurm.log")),
   ("partition", SchedVal.vStr "andromeda"),
   ("nodes", SchedVal.vStr "1-12"),
   ("ntasks_per_node", SchedVal.vStr "1"),
   ("ntasks", SchedVal.vStr "10"),
   ("modules", SchedVal.vList ["module load mpi/mpich-x86_64",
                               "module load gromacs/2023.5-plumed"])]

/-- Command construction of gmx (lines 24-39 of the source): base
invocation, then the extend calls for arguments and the two flag maps,
each loop appending flag then path. -/
def gmx_cmd (executable : String) (arguments : List String)
    (inputs outputs : List (String × String)) : List String :=
  let cmd := if executable = "mdrun"
    then ["mpirun", "gmx_mpi", executable]
    else ["gmx", executable]
  let cmd := cmd ++ arguments
  let cmd := inputs.foldl (fun c fp => c ++ [fp.1, fp.2]) cmd
  let cmd := outputs.foldl (fun c fp => c ++ [fp.1, fp.2]) cmd
  cmd

/-- Modelled from the spec: the command line as section 8 words it, the
tool invocation (or the parallel-launcher pair for mdrun), the executable
name, the free arguments, then each flag immediately followed by its path
in mapping iteration order, inputs before outputs. -/
def specCmdLine (executable : String) (arguments : List String)
    (inputs outputs : List (String × String)) : List String :=
  (if executable = "mdrun" then ["mpirun", "gmx_mpi"] else ["gmx"])
    ++ [executable] ++ arguments
    ++ (inputs.map (fun p => [p.1, p.2])).flatten
    ++ (outputs.map (fun p => [p.1, p.2])).flatten

/-- The batch-script line list of the mdrun branch (lines 74-88): shebang,
blank, the six directive slots (three of them conditional on the value not
being None, with an empty string kept in place otherwise), blank, the
modules header and lines, blank, a comment, and the joined command.
Fails like Python does when the modules entry is not a list.  Every key is
present because the defaults define all of them, so the getD fallbacks
never fire. -/
def batchLines (m : List (String × SchedVal)) (cmd : List String) :
    Except PyErr (List String) :=
  match dictGet m "modules" with
  | some (SchedVal.vList mods) =>
      let jv := (dictGet m "job_name").getD SchedVal.vNone
      let ov := (dictGet m "output").getD SchedVal.vNone
      let pv := (dictGet m "partition").getD SchedVal.vNone
      let nv := (dictGet m "nodes").getD SchedVal.vNone
      let tv := (dictGet m "ntasks").getD SchedVal.vNone
      let tpv := (dictGet m "ntasks_per_node").getD SchedVal.vNone
      Except.ok
        (["#!/bin/bash",
          "",
          "#SBATCH --job-name=" ++ pyFormat jv,
          "#SBATCH --output=" ++ pyFormat ov,
          if pv ≠ SchedVal.vNone then "#SBATCH --partition=" ++ pyFormat pv else "",
          if nv ≠ SchedVal.vNone then "#SBATCH --nodes=" ++ pyFormat nv else "",
          "#SBATCH --ntasks=" ++ pyFormat tv,
          if tpv ≠ SchedVal.vNone then "#SBATCH --ntasks-per-node=" ++ pyFormat tpv else "",
          "",
          "# Required modules"]
         ++ mods ++
         ["",
          "# Run the molecular dynamics simulation",
          String.intercalate " " cmd])
  | _ => Except.error (PyErr.typeError "can only concatenate list to list")

/-- Path of the generated batch script, percent-formatted as path slash
ensemble dot slurm. -/
def slurmPath (path ensemble : String) : String :=
  path ++ "/" ++ ensemble ++ ".slurm"

/-- The queue submission command, with the optional blocking flag. -/
def sbmttrCmd (ensemble : String) (wait : Bool) : List String :=
  if wait then ["sbatch", "--wait", ensemble ++ ".slurm"]
  else ["sbatch", ensemble ++ ".slurm"]

/-- Side effects the dispatcher attempts, recorded in order. -/
inductive Effect where
  | runProc (cmd : List String) (cwd : Option String) (stdin : Option String)
  | fileWrite (path content : String)
  | printOut (s : String)
deriving DecidableEq, Repr

/-- The fallible environment: a process runner and a file writer.  Either
may raise a Python exception, which the source never catches. -/
structure Oracles where
  run : List String → Option String → Option String → Except PyErr RunOutcome
  write : String → String → Except PyErr Unit

/-- Shallow embedding of gmx (lines 8-99): builds the command, then either
runs it directly (printing both captured streams) or, for mdrun, validates
the three required parameters, merges the scheduler overrides into the
defaults, renders and writes the batch script, and submits it.  Returns
the ordered trace of attempted side effects together with the outcome; an
uncaught exception short-circuits the rest of the body. -/
def gmx (O : Oracles) (executable : String) (arguments : List String)
    (inputs outputs : List (String × String))
    (name : Option String) (path : Option String) (ensemble : Option String)
    (scheduler : Option (List (String × SchedVal))) (wait : Bool)
    (stdin : Option String) : List Effect × Except PyErr Unit :=
  let cmd := gmx_cmd executable arguments inputs outputs
  if executable ≠ "mdrun" then
    match O.run cmd path stdin with
    | Except.error e => ([Effect.runProc cmd path stdin], Except.error e)
    | Except.ok p =>
        ([Effect.runProc cmd path stdin,
          Effect.printOut p.stdout, Effect.printOut p.stderr], Except.ok ())
  else
    match ensemble with
    | none => ([], Except.error (PyErr.valueError "ensemble must be provided."))
    | some ens =>
      match name with
      | none => ([], Except.error (PyErr.valueError "name must be provided."))
      | some nm =>
        match path with
        | none => ([], Except.error (PyErr.valueError "path must be provided."))
        | some pth =>
          let schdlr := mergeDict (schdlrDefault nm ens) (scheduler.getD [])
          match batchLines schdlr cmd with
          | Except.error e => ([], Except.error e)
          | Except.ok lines =>
            let content := String.intercalate "\n" lines
            let fpath := slurmPath pth ens
            match O.write fpath content with
            | Except.error e => ([Effect.fileWrite fpath content], Except.error e)
            | Except.ok _ =>
              let sc := sbmttrCmd ens wait
              match O.run sc (some pth) none with
              | Except.error e =>
                  ([Effect.fileWrite fpath content,
                    Effect.runProc sc (some pth) none], Except.error e)
              | Except.ok _ =>
                  ([Effect.fileWrite fpath content,
                    Effect.runProc sc (some pth) none], Except.ok ())

/-- Python range with two bounds: the integers from a up to b, exclusive. -/
def pyRange (a b : Nat) : List Nat :=
  (List.range (b - a)).map (fun k => a + k)

/-- Python percent-zero-two-d formatting of a natural number. -/
def pad2 (n : Nat) : String :=
  if n < 10 then "0" ++ toString n else toString n

/-- Valid-mode discrete convolution as numpy computes it, the shorter
argument playing the role of the kernel: entry k sums products of the
data window starting at k against the reversed kernel. -/
def convolveValid (a v : List ℚ) : List ℚ :=
  if v.length ≤ a.length then
    (List.range (a.length - v.length + 1)).map (fun k =>
      ((List.range v.length).map
        (fun j => a.getD (k + v.length - 1 - j) 0 * v.getD j 0)).sum)
  else
    (List.range (v.length - a.length + 1)).map (fun k =>
      ((List.range a.length).map
        (fun j => v.getD (k + a.length - 1 - j) 0 * a.getD j 0)).sum)

/-- The moving-average series of xvg_line and xvg_multi_line: a uniform
window of size w (each entry one over w) convolved in valid mode with the
second data column. -/
def movingAvg (w : Nat) (ys : List ℚ) : List ℚ :=
  convolveValid ys (List.replicate w ((1 : ℚ) / (w : ℚ)))

/-- The names bound at module level by the import block of gmx.py. -/
def importedNames : List String :=
  ["time", "subprocess", "np", "plt", "FuncFormatter", "display", "HTML"]

/-- Shallow embedding of the loop of xvg_multi_density (lines 228-231):
each iteration loads the replica file through the given oracle and then
evaluates the global name sns, which resolves only if the import block
bound it; an unbound name raises NameError and aborts the loop. -/
def xvg_multi_density (loadtxt : String → Except PyErr (List (ℚ × ℚ)))
    (path sufix : String) (replicas : Nat) : Except PyErr Unit :=
  (pyRange 0 replicas).foldlM
    (fun _ i => do
      let _data ← loadtxt (path ++ "/replica" ++ pad2 (i + 1) ++ sufix ++ ".xvg")
      if importedNames.contains "sns" then pure ()
      else Except.error (PyErr.nameError "sns"))
    ()

/-- The per-replica directories visited by the separate-plot branch of xvg
(lines 284-293): i runs over the Python range from 1 to replicas
exclusive, and each iteration plots from path slash replica percent-02d. -/
def xvg_replica_paths (path : String) (replicas : Nat) : List String :=
  (pyRange 1 replicas).map (fun i => path ++ "/replica" ++ pad2 i)

/-- A concrete environment in which every process and write succeeds. -/
def okOracles : Oracles :=
  ⟨fun _ _ _ => Except.ok ⟨0, "", ""⟩, fun _ _ => Except.ok ()⟩

/-- A concrete environment whose process completes with exit status one,
as a tool that fails does; subprocess.run without check raises nothing. -/
def exitOneOracles : Oracles :=
  ⟨fun _ _ _ => Except.ok ⟨1, "", "simulated tool failure"⟩,
   fun _ _ => Except.ok ()⟩

/-- A concrete environment whose process runner raises an OS error. -/
def osFailOracles : Oracles :=
  ⟨fun _ _ _ => Except.error (PyErr.osError "No such file or directory"),
   fun _ _ => Except.ok ()⟩

/-- A one-hundred-row second column, zero through ninety-nine. -/
def ysFixture : List ℚ :=
  (List.range 100).map (fun i => (i : ℚ))

theorem foldl_pairs_append (l : List (String × String)) (init : List String) :
    l.foldl (fun c fp => c ++ [fp.1, fp.2]) init
      = init ++ (l.map (fun p => [p.1, p.2])).flatten := by
  induction l generalizing init with
  | nil => simp
  | cons hd tl ih => simp [ih, List.append_assoc]

theorem gmx_cmd_eq (executable : String) (arguments : List String)
    (inputs outputs : List (String × String)) :
    gmx_cmd executable arguments inputs outputs
      = (if executable = "mdrun" then ["mpirun", "gmx_mpi"] else ["gmx"])
        ++ [executable] ++ arguments
        ++ (inputs.map (fun p => [p.1, p.2])).flatten
        ++ (outputs.map (fun p => [p.1, p.2])).flatten := by
  simp only [gmx_cmd, foldl_pairs_append]
  by_cases h : executable = "mdrun" <;> simp [h, List.append_assoc]

/-- C1: the command line built by gmx is exactly the tool invocation (or
the parallel-launcher prefix for mdrun), the executable name, the free
arguments in order, then each input flag immediately followed by its path
in mapping iteration order, then each output flag likewise. -/
theorem cmd_line_order (executable : String) (arguments : List String)
    (inputs outputs : List (String × String)) :
    gmx_cmd executable arguments inputs outputs
      = specCmdLine executable arguments inputs outputs := by
  rw [gmx_cmd_eq, specCmdLine]

/-- C6: the constructed command starts with the pair mpirun gmx_mpi
exactly when the executable is mdrun, and with gmx otherwise. -/
theorem launcher_prefix_iff_mdrun (executable : String) (arguments : List String)
    (inputs outputs : List (String × String)) :
    ((gmx_cmd executable arguments inputs outputs).take 2 = ["mpirun", "gmx_mpi"]
        ↔ executable = "mdrun")
    ∧ (executable ≠ "mdrun" →
        (gmx_cmd executable arguments inputs outputs).take 1 = ["gmx"]) := by
  rw [gmx_cmd_eq]
  by_cases h : executable = "mdrun" <;> simp [h]

/-- C6 witness at a concrete non-simulation executable. -/
theorem launcher_prefix_iff_mdrun_witness :
    ("grompp" : String) ≠ "mdrun"
    ∧ (gmx_cmd "grompp" ["-v"] [] []).take 1 = ["gmx"] :=
  ⟨by decide, (launcher_prefix_iff_mdrun "grompp" ["-v"] [] []).2 (by decide)⟩

theorem dictGet_dictSet_self {V : Type} (d : List (String × V)) (k : String) (v : V) :
    dictGet (dictSet d k v) k = some v := by
  induction d with
  | nil => simp [dictSet, dictGet]
  | cons hd tl ih =>
      obtain ⟨k0, v0⟩ := hd
      by_cases h : k0 = k <;> simp [dictSet, dictGet, h, ih]

theorem dictGet_dictSet_of_ne {V : Type} (d : List (String × V))
    (k k1 : String) (v : V) (h : k1 ≠ k) :
    dictGet (dictSet d k v) k1 = dictGet d k1 := by
  have hne : ¬(k = k1) := fun he => h he.symm
  induction d with
  | nil => simp [dictSet, dictGet, hne]
  | cons hd tl ih =>
      obtain ⟨k0, v0⟩ := hd
      by_cases hk : k0 = k
      · subst hk
        simp [dictSet, dictGet, hne]
      · by_cases hk1 : k0 = k1 <;> simp [dictSet, dictGet, hk, hk1, h, ih]

theorem dictGet_eq_none_of_not_mem {V : Type} (d : List (String × V))
    (k : String) (h : k ∉ d.map Prod.fst) :
    dictGet d k = none := by
  induction d with
  | nil => rfl
  | cons hd tl ih =>
      obtain ⟨k0, v0⟩ := hd
      simp only [List.map_cons, List.mem_cons, not_or] at h
      have h1 : ¬(k0 = k) := fun he => h.1 he.symm
      simp [dictGet, h1, ih h.2]

theorem mergeDict_dictGet_of_none {V : Type} (d ov : List (String × V))
    (k : String) (h : dictGet ov k = none) :
    dictGet (mergeDict d ov) k = dictGet d k := by
  induction ov generalizing d with
  | nil => rfl
  | cons hd tl ih =>
      obtain ⟨k0, v0⟩ := hd
      by_cases hk : k0 = k
      · simp [dictGet, hk] at h
      · have hrest : dictGet tl k = none := by simpa [dictGet, hk] using h
        show dictGet (mergeDict (dictSet d k0 v0) tl) k = dictGet d k
        rw [ih _ hrest, dictGet_dictSet_of_ne _ _ _ _ (fun he => hk he.symm)]

theorem mergeDict_dictGet_of_some {V : Type} (d ov : List (String × V))
    (k : String) (v : V) (hnd : (ov.map Prod.fst).Nodup)
    (h : dictGet ov k = some v) :
    dictGet (mergeDict d ov) k = some v := by
  induction ov generalizing d with
  | nil => simp [dictGet] at h
  | cons hd tl ih =>
      obtain ⟨k0, v0⟩ := hd
      rw [List.map_cons, List.nodup_cons] at hnd
      by_cases hk : k0 = k
      · subst hk
        have hv : v0 = v := by simpa [dictGet] using h
        have hnone : dictGet tl k0 = none :=
          dictGet_eq_none_of_not_mem _ _ hnd.1
        show dictGet (mergeDict (dictSet d k0 v0) tl) k0 = some v
        rw [mergeDict_dictGet_of_none _ _ _ hnone, dictGet_dictSet_self, hv]
      · have hrest : dictGet tl k = some v := by simpa [dictGet, hk] using h
        show dictGet (mergeDict (dictSet d k0 v0) tl) k = some v
        exact ih (dictSet d k0 v0) hnd.2 hrest

/-- C5: the merged scheduler configuration agrees with the defaults on
every key the override does not mention and with the override on every
key it does mention. -/
theorem scheduler_merge (name ensemble : String)
    (ov : List (String × SchedVal)) (k : String)
    (hnd : (ov.map Prod.fst).Nodup) :
    (dictGet ov k = none →
      dictGet (mergeDict (schdlrDefault name ensemble) ov) k
        = dictGet (schdlrDefault name ensemble) k)
    ∧ (∀ v, dictGet ov k = some v →
      dictGet (mergeDict (schdlrDefault name ensemble) ov) k = some v) :=
  ⟨fun h => mergeDict_dictGet_of_none _ _ _ h,
   fun _ h => mergeDict_dictGet_of_some _ _ _ _ hnd h⟩

/-- C5 witness: a two-key override, checked on an overridden key and on an
untouched default key. -/
theorem scheduler_merge_witness :
    (([("partition", SchedVal.vNone), ("extra", SchedVal.vStr "x")].map
        Prod.fst).Nodup)
    ∧ dictGet (mergeDict (schdlrDefault "mysys" "nvt")
        [("partition", SchedVal.vNone), ("extra", SchedVal.vStr "x")]) "partition"
        = some SchedVal.vNone
    ∧ dictGet (mergeDict (schdlrDefault "mysys" "nvt")
        [("partition", SchedVal.vNone), ("extra", SchedVal.vStr "x")]) "nodes"
        = dictGet (schdlrDefault "mysys" "nvt") "nodes" := by
  refine ⟨by decide, ?_, ?_⟩
  · exact (scheduler_merge "mysys" "nvt" _ "partition" (by decide)).2 _ rfl
  · exact (scheduler_merge "mysys" "nvt" _ "nodes" (by decide)).1 rfl

/-- C9 (code bug): the import block never binds sns, so entering the
plotting loop of xvg_multi_density with one replica and a readable data
file raises NameError instead of drawing one density curve per replica. -/
theorem kdeplot_name_unresolved :
    "sns" ∉ importedNames
    ∧ xvg_multi_density (fun _ => Except.ok []) "/data" "" 1
        = Except.error (PyErr.nameError "sns") :=
  ⟨by decide, rfl⟩

/-- C10: the separate-plot branch of xvg loops i over the Python range
from one to replicas exclusive, so it makes exactly replicas minus one
plots, reading from replica01 through replica(replicas-1); with one
replica it plots nothing. -/
theorem replica_loop_off_by_one (path : String) (replicas : Nat)
    (_h : 1 ≤ replicas) :
    (xvg_replica_paths path replicas).length = replicas - 1
    ∧ (∀ k, k < replicas - 1 →
        (xvg_replica_paths path replicas).getD k ""
          = path ++ "/replica" ++ pad2 (k + 1))
    ∧ (replicas = 1 → xvg_replica_paths path replicas = []) := by
  refine ⟨by simp [xvg_replica_paths, pyRange], ?_, ?_⟩
  · intro k hk
    simp only [xvg_replica_paths, pyRange, List.map_map]
    rw [List.getD_eq_getElem?_getD, List.getElem?_map,
        List.getElem?_range (by omega)]
    simp [Nat.add_comm 1 k]
  · intro h1
    simp [xvg_replica_paths, pyRange, h1]

/-- C10 witness at three replicas: two plots, from replica01 and
replica02, and at one replica: none. -/
theorem replica_loop_off_by_one_witness :
    (1 ≤ 3 ∧ (xvg_replica_paths "/data" 3).length = 3 - 1)
    ∧ (1 ≤ 1 ∧ xvg_replica_paths "/data" 1 = []) :=
  ⟨⟨by decide, (replica_loop_off_by_one "/data" 3 (by decide)).1⟩,
   ⟨by decide, (replica_loop_off_by_one "/data" 1 (by decide)).2.2 rfl⟩⟩

/-- C2: calling gmx for mdrun with a missing name, ensemble, or path
raises ValueError with an empty effect trace, so no file is created and
no process is run. -/
theorem mdrun_missing_params_raise (O : Oracles) (arguments : List String)
    (inputs outputs : List (String × String))
    (name path ensemble : Option String)
    (scheduler : Option (List (String × SchedVal))) (wait : Bool)
    (stdin : Option String)
    (h : ensemble = none ∨ name = none ∨ path = none) :
    ∃ msg, gmx O "mdrun" arguments inputs outputs name path ensemble
        scheduler wait stdin = ([], Except.error (PyErr.valueError msg)) := by
  rcases h with h | h | h
  · subst h
    exact ⟨"ensemble must be provided.", rfl⟩
  · subst h
    cases ensemble <;> exact ⟨_, rfl⟩
  · subst h
    cases ensemble <;> cases name <;> exact ⟨_, rfl⟩

/-- C2 witness: a concrete mdrun call missing its name. -/
theorem mdrun_missing_params_raise_witness :
    ((none : Option String) = none ∨ (none : Option String) = none
        ∨ some "/tmp" = (none : Option String))
    ∧ ∃ msg, gmx okOracles "mdrun" [] [] [] none (some "/tmp") (some "nvt")
        none false none = ([], Except.error (PyErr.valueError msg)) :=
  ⟨Or.inl rfl,
   mdrun_missing_params_raise okOracles [] [] [] none (some "/tmp")
     (some "nvt") none false none (Or.inr (Or.inl rfl))⟩

/-- C7: in scheduled mode with valid parameters, the first attempted side
effect is writing the rendered script to path slash ensemble dot slurm,
and the last line of the rendered script is the full command joined by
single spaces. -/
theorem batch_script_path_and_final_line (O : Oracles) (arguments : List String)
    (inputs outputs : List (String × String)) (nm pth ens : String)
    (scheduler : Option (List (String × SchedVal))) (wait : Bool)
    (stdin : Option String) (mods : List String)
    (hm : dictGet (mergeDict (schdlrDefault nm ens) (scheduler.getD [])) "modules"
        = some (SchedVal.vList mods)) :
    ∃ lines,
      batchLines (mergeDict (schdlrDefault nm ens) (scheduler.getD []))
          (gmx_cmd "mdrun" arguments inputs outputs) = Except.ok lines
      ∧ (gmx O "mdrun" arguments inputs outputs (some nm) (some pth) (some ens)
            scheduler wait stdin).1.head?
          = some (Effect.fileWrite (slurmPath pth ens)
              (String.intercalate "\n" lines))
      ∧ lines.getLast? = some (String.intercalate " "
            (gmx_cmd "mdrun" arguments inputs outputs)) := by
  set m := mergeDict (schdlrDefault nm ens) (scheduler.getD []) with hmdef
  set cmd := gmx_cmd "mdrun" arguments inputs outputs with hcmd
  have hb : batchLines m cmd = Except.ok
      ((["#!/bin/bash",
          "",
          "#SBATCH --job-name=" ++ pyFormat ((dictGet m "job_name").getD SchedVal.vNone),
          "#SBATCH --output=" ++ pyFormat ((dictGet m "output").getD SchedVal.vNone),
          if (dictGet m "partition").getD SchedVal.vNone ≠ SchedVal.vNone then
            "#SBATCH --partition=" ++ pyFormat ((dictGet m "partition").getD SchedVal.vNone) else "",
          if (dictGet m "nodes").getD SchedVal.vNone ≠ SchedVal.vNone then
            "#SBATCH --nodes=" ++ pyFormat ((dictGet m "nodes").getD SchedVal.vNone) else "",
          "#SBATCH --ntasks=" ++ pyFormat ((dictGet m "ntasks").getD SchedVal.vNone),
          if (dictGet m "ntasks_per_node").getD SchedVal.vNone ≠ SchedVal.vNone then
            "#SBATCH --ntasks-per-node=" ++ pyFormat ((dictGet m "ntasks_per_node").getD SchedVal.vNone) else "",
          "",
          "# Required modules"]
         ++ mods ++ ["", "# Run the molecular dynamics simulation"])
        ++ [String.intercalate " " cmd]) := by
    unfold batchLines
    rw [hm]
    simp [List.append_assoc]
  refine ⟨_, hb, ?_, List.getLast?_concat _⟩
  show (gmx O "mdrun" arguments inputs outputs (some nm) (some pth) (some ens)
      scheduler wait stdin).1.head? = _
  simp only [gmx]
  rw [if_neg (by simp)]
  rw [← hmdef, ← hcmd, hb]
  split
  · next heq => simp at heq
  · next lines heq =>
      have hl := Except.ok.inj heq
      subst hl
      split
      · simp
      · split <;> simp

/-- C7 witness: a concrete mdrun submission with one input and one output
flag and the default scheduler configuration. -/
theorem batch_script_path_and_final_line_witness :
    dictGet (mergeDict (schdlrDefault "mysys" "nvt")
        ((none : Option (List (String × SchedVal))).getD [])) "modules"
      = some (SchedVal.vList ["module load mpi/mpich-x86_64",
                              "module load gromacs/2023.5-plumed"])
    ∧ ∃ lines,
      batchLines (mergeDict (schdlrDefault "mysys" "nvt")
            ((none : Option (List (String × SchedVal))).getD []))
          (gmx_cmd "mdrun" ["-v"] [("-s", "topol.tpr")] [("-o", "out.trr")])
        = Except.ok lines
      ∧ (gmx okOracles "mdrun" ["-v"] [("-s", "topol.tpr")] [("-o", "out.trr")]
            (some "mysys") (some "/tmp") (some "nvt") none false none).1.head?
          = some (Effect.fileWrite (slurmPath "/tmp" "nvt")
              (String.intercalate "\n" lines))
      ∧ lines.getLast? = some (String.intercalate " "
            (gmx_cmd "mdrun" ["-v"] [("-s", "topol.tpr")] [("-o", "out.trr")])) :=
  ⟨rfl, batch_script_path_and_final_line okOracles ["-v"] [("-s", "topol.tpr")]
    [("-o", "out.trr")] "mysys" "/tmp" "nvt" none false none _ rfl⟩

/-- C3 counterexample: overriding partition and job_name to Python None
does not omit any line: the script still has fifteen lines, an empty line
remains in the partition slot (index four), and the job-name directive is
rendered with the text None rather than omitted. -/
theorem batch_null_directive_cex :
    batchLines (mergeDict (schdlrDefault "mysys" "nvt")
        [("partition", SchedVal.vNone), ("job_name", SchedVal.vNone)])
      ["mpirun", "gmx_mpi", "mdrun"]
    = Except.ok ["#!/bin/bash", "", "#SBATCH --job-name=None",
        "#SBATCH --output=nvt.slurm.log", "", "#SBATCH --nodes=1-12",
        "#SBATCH --ntasks=10", "#SBATCH --ntasks-per-node=1", "",
        "# Required modules", "module load mpi/mpich-x86_64",
        "module load gromacs/2023.5-plumed", "",
        "# Run the molecular dynamics simulation", "mpirun gmx_mpi mdrun"]
    ∧ (batchLines (mergeDict (schdlrDefault "mysys" "nvt") [])
        ["mpirun", "gmx_mpi", "mdrun"]).map List.length = Except.ok 15 :=
  ⟨rfl, rfl⟩

/-- C3 amended: a null partition, nodes, or ntasks-per-node value leaves
an empty line in its directive slot (the line count stays thirteen plus
the module count) instead of omitting the line, while the job-name,
output, and ntasks directives are emitted unconditionally, a null value
being formatted as the text None; a non-null value yields the directive
line with the correct value. -/
theorem batch_null_directive_amended (m : List (String × SchedVal))
    (cmd : List String) (mods : List String)
    (hm : dictGet m "modules" = some (SchedVal.vList mods)) :
    ∃ lines, batchLines m cmd = Except.ok lines
      ∧ lines.length = 13 + mods.length
      ∧ lines.getD 2 "" = "#SBATCH --job-name="
          ++ pyFormat ((dictGet m "job_name").getD SchedVal.vNone)
      ∧ lines.getD 3 "" = "#SBATCH --output="
          ++ pyFormat ((dictGet m "output").getD SchedVal.vNone)
      ∧ lines.getD 6 "" = "#SBATCH --ntasks="
          ++ pyFormat ((dictGet m "ntasks").getD SchedVal.vNone)
      ∧ lines.getD 4 "#" = (if (dictGet m "partition").getD SchedVal.vNone
            ≠ SchedVal.vNone then
          "#SBATCH --partition="
            ++ pyFormat ((dictGet m "partition").getD SchedVal.vNone) else "")
      ∧ lines.getD 5 "#" = (if (dictGet m "nodes").getD SchedVal.vNone
            ≠ SchedVal.vNone then
          "#SBATCH --nodes="
            ++ pyFormat ((dictGet m "nodes").getD SchedVal.vNone) else "")
      ∧ lines.getD 7 "#" = (if (dictGet m "ntasks_per_node").getD SchedVal.vNone
            ≠ SchedVal.vNone then
          "#SBATCH --ntasks-per-node="
            ++ pyFormat ((dictGet m "ntasks_per_node").getD SchedVal.vNone)
          else "") := by
  have hb : batchLines m cmd = Except.ok
      (["#!/bin/bash",
        "",
        "#SBATCH --job-name=" ++ pyFormat ((dictGet m "job_name").getD SchedVal.vNone),
        "#SBATCH --output=" ++ pyFormat ((dictGet m "output").getD SchedVal.vNone),
        if (dictGet m "partition").getD SchedVal.vNone ≠ SchedVal.vNone then
          "#SBATCH --partition=" ++ pyFormat ((dictGet m "partition").getD SchedVal.vNone) else "",
        if (dictGet m "nodes").getD SchedVal.vNone ≠ SchedVal.vNone then
          "#SBATCH --nodes=" ++ pyFormat ((dictGet m "nodes").getD SchedVal.vNone) else "",
        "#SBATCH --ntasks=" ++ pyFormat ((dictGet m "ntasks").getD SchedVal.vNone),
        if (dictGet m "ntasks_per_node").getD SchedVal.vNone ≠ SchedVal.vNone then
          "#SBATCH --ntasks-per-node=" ++ pyFormat ((dictGet m "ntasks_per_node").getD SchedVal.vNone) else "",
        "",
        "# Required modules"]
       ++ mods ++
       ["",
        "# Run the molecular dynamics simulation",
        String.intercalate " " cmd]) := by
    unfold batchLines
    rw [hm]
  refine ⟨_, hb, ?_, ?_, ?_, ?_, ?_, ?_, ?_⟩
  all_goals simp [List.getD, List.length_append]
  omega

/-- C3 amended witness: with partition overridden to None the slot at
index four is an empty line while nodes keeps its directive. -/
theorem batch_null_directive_amended_witness :
    dictGet (mergeDict (schdlrDefault "mysys" "nvt")
        [("partition", SchedVal.vNone)]) "modules"
      = some (SchedVal.vList ["module load mpi/mpich-x86_64",
                              "module load gromacs/2023.5-plumed"])
    ∧ ∃ lines, batchLines (mergeDict (schdlrDefault "mysys" "nvt")
          [("partition", SchedVal.vNone)]) ["mpirun", "gmx_mpi", "mdrun"]
        = Except.ok lines
      ∧ lines.length = 13 + (["module load mpi/mpich-x86_64",
          "module load gromacs/2023.5-plumed"] : List String).length
      ∧ lines.getD 2 "" = "#SBATCH --job-name=" ++ pyFormat ((dictGet
          (mergeDict (schdlrDefault "mysys" "nvt")
            [("partition", SchedVal.vNone)]) "job_name").getD SchedVal.vNone)
      ∧ lines.getD 3 "" = "#SBATCH --output=" ++ pyFormat ((dictGet
          (mergeDict (schdlrDefault "mysys" "nvt")
            [("partition", SchedVal.vNone)]) "output").getD SchedVal.vNone)
      ∧ lines.getD 6 "" = "#SBATCH --ntasks=" ++ pyFormat ((dictGet
          (mergeDict (schdlrDefault "mysys" "nvt")
            [("partition", SchedVal.vNone)]) "ntasks").getD SchedVal.vNone)
      ∧ lines.getD 4 "#" = (if (dictGet (mergeDict (schdlrDefault "mysys" "nvt")
            [("partition", SchedVal.vNone)]) "partition").getD SchedVal.vNone
            ≠ SchedVal.vNone then
          "#SBATCH --partition=" ++ pyFormat ((dictGet (mergeDict
            (schdlrDefault "mysys" "nvt") [("partition", SchedVal.vNone)])
            "partition").getD SchedVal.vNone) else "")
      ∧ lines.getD 5 "#" = (if (dictGet (mergeDict (schdlrDefault "mysys" "nvt")
            [("partition", SchedVal.vNone)]) "nodes").getD SchedVal.vNone
            ≠ SchedVal.vNone then
          "#SBATCH --nodes=" ++ pyFormat ((dictGet (mergeDict
            (schdlrDefault "mysys" "nvt") [("partition", SchedVal.vNone)])
            "nodes").getD SchedVal.vNone) else "")
      ∧ lines.getD 7 "#" = (if (dictGet (mergeDict (schdlrDefault "mysys" "nvt")
            [("partition", SchedVal.vNone)]) "ntasks_per_node").getD
            SchedVal.vNone ≠ SchedVal.vNone then
          "#SBATCH --ntasks-per-node=" ++ pyFormat ((dictGet (mergeDict
            (schdlrDefault "mysys" "nvt") [("partition", SchedVal.vNone)])
            "ntasks_per_node").getD SchedVal.vNone) else "") :=
  ⟨rfl, batch_null_directive_amended (mergeDict (schdlrDefault "mysys" "nvt")
    [("partition", SchedVal.vNone)]) ["mpirun", "gmx_mpi", "mdrun"]
    ["module load mpi/mpich-x86_64", "module load gromacs/2023.5-plumed"] rfl⟩

/-- C8 counterexample: in direct mode the tool exits with status one, yet
gmx completes normally, because subprocess.run is called without check
and a nonzero exit status raises nothing. -/
theorem failure_propagation_cex :
    exitOneOracles.run (gmx_cmd "grompp" [] [] []) none none
      = Except.ok ⟨1, "", "simulated tool failure"⟩
    ∧ (gmx exitOneOracles "grompp" [] [] [] none none none none false none).2
      = Except.ok () :=
  ⟨rfl, rfl⟩

/-- C8 amended: every exception raised by the process runner or the file
writer propagates to the caller unmodified and aborts the call, in direct
mode as in scheduled mode; a completed direct-mode process, whatever its
exit status, raises nothing and the call finishes normally. -/
theorem failure_propagation_amended (O : Oracles) (executable : String)
    (arguments : List String) (inputs outputs : List (String × String))
    (name path ensemble : Option String)
    (scheduler : Option (List (String × SchedVal))) (wait : Bool)
    (stdin : Option String) (e : PyErr) :
    (executable ≠ "mdrun" →
      O.run (gmx_cmd executable arguments inputs outputs) path stdin
        = Except.error e →
      (gmx O executable arguments inputs outputs name path ensemble scheduler
        wait stdin).2 = Except.error e)
    ∧ (∀ p : RunOutcome, executable ≠ "mdrun" →
      O.run (gmx_cmd executable arguments inputs outputs) path stdin
        = Except.ok p →
      (gmx O executable arguments inputs outputs name path ensemble scheduler
        wait stdin).2 = Except.ok ())
    ∧ (∀ nm pth ens lines,
      batchLines (mergeDict (schdlrDefault nm ens) (scheduler.getD []))
          (gmx_cmd "mdrun" arguments inputs outputs) = Except.ok lines →
      O.write (slurmPath pth ens) (String.intercalate "\n" lines)
        = Except.error e →
      (gmx O "mdrun" arguments inputs outputs (some nm) (some pth) (some ens)
        scheduler wait stdin).2 = Except.error e)
    ∧ (∀ nm pth ens lines,
      batchLines (mergeDict (schdlrDefault nm ens) (scheduler.getD []))
          (gmx_cmd "mdrun" arguments inputs outputs) = Except.ok lines →
      O.write (slurmPath pth ens) (String.intercalate "\n" lines)
        = Except.ok () →
      O.run (sbmttrCmd ens wait) (some pth) none = Except.error e →
      (gmx O "mdrun" arguments inputs outputs (some nm) (some pth) (some ens)
        scheduler wait stdin).2 = Except.error e) := by
  refine ⟨?_, ?_, ?_, ?_⟩
  · intro hex hrun
    simp only [gmx]
    rw [if_pos hex, hrun]
  · intro p hex hrun
    simp only [gmx]
    rw [if_pos hex, hrun]
  · intro nm pth ens lines hbatch hwrite
    simp only [gmx]
    rw [if_neg (by simp)]
    rw [hbatch]
    split
    · next heq => simp at heq
    · next lines2 heq =>
        have hl := Except.ok.inj heq
        subst hl
        rw [hwrite]
  · intro nm pth ens lines hbatch hwrite hrun
    simp only [gmx]
    rw [if_neg (by simp)]
    rw [hbatch]
    split
    · next heq => simp at heq
    · next lines2 heq =>
        have hl := Except.ok.inj heq
        subst hl
        rw [hwrite, hrun]

/-- C8 amended witness: the runner raises an OS error in direct mode and
gmx surfaces exactly that error. -/
theorem failure_propagation_amended_witness :
    ("grompp" : String) ≠ "mdrun"
    ∧ osFailOracles.run (gmx_cmd "grompp" [] [] []) none none
        = Except.error (PyErr.osError "No such file or directory")
    ∧ (gmx osFailOracles "grompp" [] [] [] none none none none false none).2
        = Except.error (PyErr.osError "No such file or directory") :=
  ⟨by decide, rfl,
   (failure_propagation_amended osFailOracles "grompp" [] [] [] none none none
     none false none (PyErr.osError "No such file or directory")).1
     (by decide) rfl⟩

theorem sum_map_range (n : Nat) (f : Nat → ℚ) :
    ((List.range n).map f).sum = ∑ j ∈ Finset.range n, f j := by
  induction n with
  | zero => simp
  | succ n ih => simp [List.range_succ, Finset.sum_range_succ, ih]

theorem getD_map_range (m k : Nat) (g : Nat → ℚ) (h : k < m) :
    ((List.range m).map g).getD k 0 = g k := by
  rw [List.getD_eq_getElem?_getD, List.getElem?_map, List.getElem?_range h]
  rfl

theorem getD_replicate (w j : Nat) (c : ℚ) (h : j < w) :
    (List.replicate w c).getD j 0 = c := by
  rw [List.getD_eq_getElem?_getD, List.getElem?_replicate]
  simp [h]

/-- C4: for a series of length at least w and window w at least one, the
moving-average overlay has exactly length minus w plus one points, and
the k-th point is the unweighted mean of the w consecutive values
starting at row k. -/
theorem moving_average_window (ys : List ℚ) (w : Nat) (_h1 : 1 ≤ w)
    (h2 : w ≤ ys.length) :
    (movingAvg w ys).length = ys.length - w + 1
    ∧ ∀ k, k < ys.length - w + 1 →
        (movingAvg w ys).getD k 0
          = (∑ j ∈ Finset.range w, ys.getD (k + j) 0) / (w : ℚ) := by
  have hle : (List.replicate w ((1 : ℚ) / (w : ℚ))).length ≤ ys.length := by
    simpa using h2
  have hlv : (List.replicate w ((1 : ℚ) / (w : ℚ))).length = w := by simp
  constructor
  · simp [movingAvg, convolveValid, h2]
  · intro k hk
    rw [movingAvg, convolveValid, if_pos hle, hlv]
    rw [getD_map_range _ _ _ (by omega)]
    rw [sum_map_range]
    have hrepl : ∀ j ∈ Finset.range w,
        ys.getD (k + w - 1 - j) 0
          * (List.replicate w ((1 : ℚ) / (w : ℚ))).getD j 0
        = ys.getD (k + w - 1 - j) 0 * ((1 : ℚ) / (w : ℚ)) := by
      intro j hj
      rw [Finset.mem_range] at hj
      rw [getD_replicate _ _ _ hj]
    rw [Finset.sum_congr rfl hrepl, ← Finset.sum_mul]
    have hrefl : ∑ j ∈ Finset.range w, ys.getD (k + w - 1 - j) 0
        = ∑ j ∈ Finset.range w, ys.getD (k + j) 0 := by
      rw [← Finset.sum_range_reflect (fun j => ys.getD (k + j) 0) w]
      refine Finset.sum_congr rfl ?_
      intro j hj
      rw [Finset.mem_range] at hj
      congr 1
      omega
    rw [hrefl, mul_one_div]

/-- C4 witness: on the hundred-row fixture with window ten the overlay has
ninety-one points and its first point is the mean of rows zero to nine. -/
theorem moving_average_window_witness :
    1 ≤ 10 ∧ 10 ≤ ysFixture.length
    ∧ (movingAvg 10 ysFixture).length = 91
    ∧ (movingAvg 10 ysFixture).getD 0 0
        = (∑ j ∈ Finset.range 10, ysFixture.getD (0 + j) 0) / (10 : ℚ) := by
  have h1 : (1 : Nat) ≤ 10 := by decide
  have h2 : 10 ≤ ysFixture.length := by decide
  have hth := moving_average_window ysFixture 10 h1 h2
  refine ⟨h1, h2, ?_, hth.2 0 (by decide)⟩
  rw [hth.1]
  decide
